import Mathlib

/-!
Verification of the webOS remote-navigation controller of
`src/anyflix-player/src/hooks/useWebOSFocus.ts`.

The file shallowly embeds the two hooks of that module:

* `useWebOSNavigation` (the per-container binding): its key handler
  `handleKeyDown`, the mode listeners `handlePointerMove` and
  `handleNavigationKeyDown`, and the initialization effect that switches the
  mode to `5way` when the webOS global is present.
* `useWebOSFocus` (the per-element binding): its `focusProps` handlers
  (`onFocus`, `onBlur`, `onKeyDown`) and its document-level `keydown`
  listener that handles the remote Back key.

Callbacks supplied by the caller are modelled by their presence and, for the
boolean-returning ones (`onNavigate`, `onBack`), by the value they return;
observable side effects (preventDefault, focusing or clicking an element,
history navigation, the exit-confirmation prompt, closing the window, and
each callback invocation) are collected in explicit effect records.

React `useState` cells are modelled as explicit state threaded through the
handlers.  A handler created with `useCallback` closes over the state values
of the render that created it, so within a single browser event turn every
handler reads the state committed before the turn, and `set*` calls only
take effect for later turns; the `*Turn` functions below encode exactly
that.
-/

/-- Navigation mode: the source's string union `'pointer' | '5way'`. -/
inductive NavMode
  | pointer
  | fiveWay
deriving DecidableEq, Repr

/-- A direction passed to `onNavigate`: the source's string union
`'left' | 'right' | 'up' | 'down'`. -/
inductive Direction
  | left
  | right
  | up
  | down
deriving DecidableEq, Repr

/-- The `KEY_CODES` ref of `useWebOSNavigation`. -/
structure KeyCodes where
  LEFT : Nat
  UP : Nat
  RIGHT : Nat
  DOWN : Nat
  OK : Nat
  BACK : Nat
deriving Repr

/-- webOS TV key codes, exactly as initialized in the source. -/
def KEY_CODES : KeyCodes :=
  { LEFT := 37
    UP := 38
    RIGHT := 39
    DOWN := 40
    OK := 13
    BACK := 461 }

/-- Options of `useWebOSNavigation`, restricted to what its key handler
reads.  Optional callbacks are modelled by presence plus returned value:
`onNavigate` is `none` when absent, otherwise the function the caller
supplied (abstracted to the boolean it returns per direction); `onBack` is
`none` when absent, otherwise the boolean it returns; `onOk` records only
presence because it returns nothing. -/
structure NavOptions where
  onNavigate : Option (Direction → Bool)
  onBack : Option Bool
  onOk : Bool

/-- Host environment read by the default Back behavior:
`window.history.length` and the answer the user gives to
`window.confirm('Do you want to exit the app?')`. -/
structure HostEnv where
  historyLength : Nat
  confirmExit : Bool
deriving Repr

/-- Observable effects of one invocation of the container key handler. -/
structure NavEffects where
  preventDefault : Bool
  navigateCalls : List Direction
  okCalled : Bool
  clicked : Option Int
  backCalled : Bool
  focusedElement : Option Int
  defaultMoves : Nat
  historyBack : Bool
  promptShown : Bool
  windowClosed : Bool
deriving DecidableEq, Repr

/-- The all-false effect record: what a handler that does nothing reports. -/
def noNavEffects : NavEffects :=
  { preventDefault := false
    navigateCalls := []
    okCalled := false
    clicked := none
    backCalled := false
    focusedElement := none
    defaultMoves := 0
    historyBack := false
    promptShown := false
    windowClosed := false }

/-- `focusableElements.current[idx]?.focus()`: the element is focused only
when `idx` is a valid index of the tracked list (of length `n`); an
out-of-range index (including `-1`) silently focuses nothing. -/
def tryFocus (n : Nat) (idx : Int) : Option Int :=
  if 0 ≤ idx ∧ idx < (n : Int) then some idx else none

/-- The LEFT updater passed to `setFocusedIndex`:
`prev > 0 ? prev - 1 : focusableElements.current.length - 1`. -/
def moveLeft (n : Nat) (prev : Int) : Int :=
  if prev > 0 then prev - 1 else (n : Int) - 1

/-- The RIGHT updater passed to `setFocusedIndex`:
`prev < focusableElements.current.length - 1 ? prev + 1 : 0`. -/
def moveRight (n : Nat) (prev : Int) : Int :=
  if prev < (n : Int) - 1 then prev + 1 else 0

/-- `const handled = options.onNavigate?.(dir)` followed by `!handled`:
an absent handler yields `undefined`, which is falsy exactly like a
returned `false`. -/
def navHandled (opts : NavOptions) (d : Direction) : Bool :=
  match opts.onNavigate with
  | some f => f d
  | none => false

/-- The directions recorded when `options.onNavigate?.(dir)` runs: the call
happens only when the handler is present. -/
def navCall (opts : NavOptions) (d : Direction) : List Direction :=
  match opts.onNavigate with
  | some _ => [d]
  | none => []

/-- `const handled = options.onBack?.()` followed by `!handled`. -/
def backHandled (opts : NavOptions) : Bool :=
  match opts.onBack with
  | some b => b
  | none => false

/-- `handleKeyDown` of `useWebOSNavigation`, translated case by case from
the `switch (event.keyCode)` statement.  Inputs are the hook options, the
host environment, the `navigationMode` value the `useCallback` closure
captured, the length `n` of `focusableElements.current`, the current
`focusedIndex`, and the event's key code; the result is the focused index
after the handler plus the effects it performed. -/
def handleKeyDown (opts : NavOptions) (env : HostEnv) (mode : NavMode)
    (n : Nat) (focusedIndex : Int) (keyCode : Nat) : Int × NavEffects :=
  if keyCode = KEY_CODES.LEFT then
    if mode = NavMode.fiveWay then
      if navHandled opts Direction.left then
        (focusedIndex,
          { noNavEffects with
              preventDefault := true
              navigateCalls := navCall opts Direction.left })
      else
        let newIndex := moveLeft n focusedIndex
        (newIndex,
          { noNavEffects with
              preventDefault := true
              navigateCalls := navCall opts Direction.left
              focusedElement := tryFocus n newIndex
              defaultMoves := 1 })
    else
      (focusedIndex, { noNavEffects with preventDefault := true })
  else if keyCode = KEY_CODES.RIGHT then
    if mode = NavMode.fiveWay then
      if navHandled opts Direction.right then
        (focusedIndex,
          { noNavEffects with
              preventDefault := true
              navigateCalls := navCall opts Direction.right })
      else
        let newIndex := moveRight n focusedIndex
        (newIndex,
          { noNavEffects with
              preventDefault := true
              navigateCalls := navCall opts Direction.right
              focusedElement := tryFocus n newIndex
              defaultMoves := 1 })
    else
      (focusedIndex, { noNavEffects with preventDefault := true })
  else if keyCode = KEY_CODES.UP then
    if mode = NavMode.fiveWay then
      (focusedIndex,
        { noNavEffects with
            preventDefault := true
            navigateCalls := navCall opts Direction.up })
    else
      (focusedIndex, { noNavEffects with preventDefault := true })
  else if keyCode = KEY_CODES.DOWN then
    if mode = NavMode.fiveWay then
      (focusedIndex,
        { noNavEffects with
            preventDefault := true
            navigateCalls := navCall opts Direction.down })
    else
      (focusedIndex, { noNavEffects with preventDefault := true })
  else if keyCode = KEY_CODES.OK then
    if mode = NavMode.fiveWay then
      (focusedIndex,
        { noNavEffects with
            clicked := tryFocus n focusedIndex
            okCalled := opts.onOk })
    else
      (focusedIndex, noNavEffects)
  else if keyCode = KEY_CODES.BACK then
    if backHandled opts then
      (focusedIndex,
        { noNavEffects with
            preventDefault := true
            backCalled := opts.onBack.isSome })
    else if env.historyLength > 1 then
      (focusedIndex,
        { noNavEffects with
            preventDefault := true
            backCalled := opts.onBack.isSome
            historyBack := true })
    else
      (focusedIndex,
        { noNavEffects with
            preventDefault := true
            backCalled := opts.onBack.isSome
            promptShown := true
            windowClosed := env.confirmExit })
  else
    (focusedIndex, noNavEffects)

/-- `handlePointerMove` of `useWebOSNavigation`: unconditionally
`setNavigationMode('pointer')`. -/
def handlePointerMove (_mode : NavMode) : NavMode :=
  NavMode.pointer

/-- `handleNavigationKeyDown` of `useWebOSNavigation`:
`if ([37, 38, 39, 40].includes(e.keyCode)) setNavigationMode('5way')`. -/
def handleNavigationKeyDown (mode : NavMode) (keyCode : Nat) : NavMode :=
  if [37, 38, 39, 40].contains keyCode then NavMode.fiveWay else mode

/-- The raw input events the mode listeners observe. -/
inductive InputEvent
  | pointerMove
  | keyDown (keyCode : Nat)
deriving DecidableEq, Repr

/-- One event processed by the two document-level mode listeners. -/
def modeStep (mode : NavMode) : InputEvent → NavMode
  | InputEvent.pointerMove => handlePointerMove mode
  | InputEvent.keyDown c => handleNavigationKeyDown mode c

/-- The `useState('pointer')` initial value of `navigationMode`. -/
def useStateInitialMode : NavMode :=
  NavMode.pointer

/-- The body of the `useWebOSNavigation` effect's webOS check:
`if (isWebOS) setNavigationMode('5way')`, where `isWebOS` is the
TV-runtime detection predicate (`(window as any).webOS !== undefined`).
The effect runs at mount and — because its dependency array lists
`navigationMode` (and `handleKeyDown`, recreated whenever the mode
changes) — re-runs after every committed mode change, re-executing this
check each time. -/
def mountEffectMode (isWebOS : Bool) (mode : NavMode) : NavMode :=
  if isWebOS then NavMode.fiveWay else mode

/-- The navigation mode right after initialization settles (the mount
effect has run). -/
def initialMode (isWebOS : Bool) : NavMode :=
  mountEffectMode isWebOS useStateInitialMode

/-- One settled event turn of the mode state: the two listeners process
the event, the resulting mode commits, and the effect re-run triggered by
that commit re-executes its webOS check — so on a TV runtime the mode
snaps back to `5way` before the next event is processed. -/
def settledModeStep (isWebOS : Bool) (mode : NavMode) (e : InputEvent) :
    NavMode :=
  mountEffectMode isWebOS (modeStep mode e)

/-- The settled navigation mode after the listeners (and the effect
re-runs their updates trigger) process a whole event sequence. -/
def runMode (isWebOS : Bool) (events : List InputEvent) : NavMode :=
  events.foldl (settledModeStep isWebOS) (initialMode isWebOS)

/-- An event is qualifying when it can change the mode: any pointer-move,
or a key-down whose code is one of the four arrow codes. -/
def qualifying : InputEvent → Bool
  | InputEvent.pointerMove => true
  | InputEvent.keyDown c => [37, 38, 39, 40].contains c

/-- The last qualifying event of a sequence, if any. -/
def lastQualifying (events : List InputEvent) : Option InputEvent :=
  (events.filter qualifying).getLast?

/-- Modelled from the spec: the mode the specification predicts after a
sequence — `Pointer` if the last qualifying event was a pointer-move,
`RemoteDPad` if it was a directional key, the initial mode if no
qualifying event occurred. -/
def modeAfterSpec (isWebOS : Bool) (events : List InputEvent) : NavMode :=
  match lastQualifying events with
  | some InputEvent.pointerMove => NavMode.pointer
  | some (InputEvent.keyDown _) => NavMode.fiveWay
  | none => initialMode isWebOS

/-- Options of `useWebOSFocus`.  `onFocus`, `onBlur`, `onEnter` return
nothing, so only their presence matters; `onBack` returns a boolean, but
the hook discards it, so presence again suffices. -/
structure FocusOptions where
  onFocusPresent : Bool
  onBlurPresent : Bool
  onEnterPresent : Bool
  onBackPresent : Bool
  disabled : Bool
deriving DecidableEq, Repr

/-- Observable effects of the per-element binding's handlers. -/
structure FocusEffects where
  preventDefault : Bool
  onFocusCalled : Bool
  onBlurCalled : Bool
  onEnterCalled : Bool
  onBackCalled : Bool
deriving DecidableEq, Repr

/-- The all-false per-element effect record. -/
def noFocusEffects : FocusEffects :=
  { preventDefault := false
    onFocusCalled := false
    onBlurCalled := false
    onEnterCalled := false
    onBackCalled := false }

/-- Merge the effects of two handlers that fire in the same event turn. -/
def mergeFocusEffects (a b : FocusEffects) : FocusEffects :=
  { preventDefault := a.preventDefault || b.preventDefault
    onFocusCalled := a.onFocusCalled || b.onFocusCalled
    onBlurCalled := a.onBlurCalled || b.onBlurCalled
    onEnterCalled := a.onEnterCalled || b.onEnterCalled
    onBackCalled := a.onBackCalled || b.onBackCalled }

/-- `focusProps.tabIndex`: `options.disabled ? -1 : 0`. -/
def focusPropsTabIndex (opts : FocusOptions) : Int :=
  if opts.disabled then -1 else 0

/-- `focusProps['data-webos-focusable']`: `!options.disabled`. -/
def focusPropsWebosFocusable (opts : FocusOptions) : Bool :=
  !opts.disabled

/-- `focusProps.onFocus`: sets `isFocused` and invokes `onFocus` only when
not disabled.  Returns the new `isFocused` value and the effects. -/
def focusPropsOnFocus (opts : FocusOptions) (isFocused : Bool) :
    Bool × FocusEffects :=
  if !opts.disabled then
    (true, { noFocusEffects with onFocusCalled := opts.onFocusPresent })
  else
    (isFocused, noFocusEffects)

/-- `focusProps.onBlur`: unconditionally clears `isFocused` and invokes
`onBlur` when present — the source has no `disabled` guard here. -/
def focusPropsOnBlur (opts : FocusOptions) (_isFocused : Bool) :
    Bool × FocusEffects :=
  (false, { noFocusEffects with onBlurCalled := opts.onBlurPresent })

/-- `focusProps.onKeyDown`: on the `Enter` key, when not disabled,
prevent default and invoke `onEnter` when present. -/
def focusPropsOnKeyDown (opts : FocusOptions) (key : String) : FocusEffects :=
  if key = "Enter" ∧ !opts.disabled then
    { noFocusEffects with
        preventDefault := true
        onEnterCalled := opts.onEnterPresent }
  else
    noFocusEffects

/-- The document-level `keydown` listener installed by `useWebOSFocus`:
arrow keys (by `e.key` string) switch the mode to `5way`; key code 461
with `options.onBack` present prevents default and invokes `onBack`.
Neither branch consults `disabled` or the element's focus state. -/
def focusDocKeyDown (opts : FocusOptions) (mode : NavMode)
    (key : String) (keyCode : Nat) : NavMode × FocusEffects :=
  let mode2 :=
    if ["ArrowUp", "ArrowDown", "ArrowLeft", "ArrowRight"].contains key then
      NavMode.fiveWay
    else
      mode
  if keyCode = 461 ∧ opts.onBackPresent then
    (mode2,
      { noFocusEffects with preventDefault := true, onBackCalled := true })
  else
    (mode2, noFocusEffects)

/-- One browser `keydown` turn for an element carrying the per-element
binding: the React `onKeyDown` prop fires only when the event targets the
element, i.e. when the element is focused; the document-level listener
fires on every keydown as the event bubbles to the document. -/
def focusKeyDownTurn (opts : FocusOptions) (isFocused : Bool)
    (mode : NavMode) (key : String) (keyCode : Nat) :
    NavMode × FocusEffects :=
  let elemEff := if isFocused then focusPropsOnKeyDown opts key else noFocusEffects
  let (mode2, docEff) := focusDocKeyDown opts mode key keyCode
  (mode2, mergeFocusEffects elemEff docEff)

/-- The `useState` cells of one `useWebOSNavigation` instance. -/
structure ContainerState where
  navigationMode : NavMode
  focusedIndex : Int
deriving DecidableEq, Repr

/-- One browser `keydown` turn for the container binding.  Two listeners
observe the event: `handleKeyDown` (on `window`) and
`handleNavigationKeyDown` (on `document`).  Both are `useCallback`
closures over the state committed at the last render, so each reads the
pre-turn `navigationMode`; the `setNavigationMode('5way')` issued by
`handleNavigationKeyDown` is applied by React only after the turn, and is
therefore not visible to `handleKeyDown` while it processes this very
event. -/
def containerKeyTurn (opts : NavOptions) (env : HostEnv) (n : Nat)
    (s : ContainerState) (keyCode : Nat) : ContainerState × NavEffects :=
  let (newIndex, eff) :=
    handleKeyDown opts env s.navigationMode n s.focusedIndex keyCode
  let newMode := handleNavigationKeyDown s.navigationMode keyCode
  ({ navigationMode := newMode, focusedIndex := newIndex }, eff)

/-- One browser `pointermove` turn for the container binding. -/
def containerPointerTurn (s : ContainerState) : ContainerState :=
  { s with navigationMode := handlePointerMove s.navigationMode }

lemma modeStep_of_qualifying (m m' : NavMode) (e : InputEvent)
    (h : qualifying e = true) : modeStep m e = modeStep m' e := by
  cases e with
  | pointerMove => rfl
  | keyDown c =>
    simp only [qualifying] at h
    show handleNavigationKeyDown m c = handleNavigationKeyDown m' c
    unfold handleNavigationKeyDown
    rw [h]
    simp

lemma modeStep_of_not_qualifying (m : NavMode) (e : InputEvent)
    (h : qualifying e = false) : modeStep m e = m := by
  cases e with
  | pointerMove => simp [qualifying] at h
  | keyDown c =>
    simp only [qualifying] at h
    show handleNavigationKeyDown m c = m
    unfold handleNavigationKeyDown
    rw [h]
    simp

lemma foldl_modeStep (init : NavMode) (events : List InputEvent) :
    events.foldl modeStep init =
      ((events.filter qualifying).getLast?).elim init (modeStep init) := by
  induction events using List.reverseRecOn with
  | nil => rfl
  | append_singleton es e ih =>
    rw [List.foldl_append, List.filter_append]
    cases he : qualifying e with
    | true =>
      simp only [List.filter_cons, List.filter_nil, he, if_pos]
      rw [List.getLast?_concat]
      simp only [List.foldl_cons, List.foldl_nil, Option.elim]
      exact modeStep_of_qualifying _ _ _ he
    | false =>
      simp only [List.filter_cons, List.filter_nil, he, List.append_nil,
        List.foldl_cons, List.foldl_nil, Bool.false_eq_true, if_false]
      rw [modeStep_of_not_qualifying _ _ he, ih]

lemma runMode_webOS (events : List InputEvent) :
    runMode true events = NavMode.fiveWay := by
  unfold runMode
  have hinit : initialMode true = NavMode.fiveWay := rfl
  rw [hinit]
  induction events with
  | nil => rfl
  | cons e es ih =>
    rw [List.foldl_cons]
    have hstep : settledModeStep true NavMode.fiveWay e = NavMode.fiveWay :=
      rfl
    rw [hstep]
    exact ih

/-- Counterexample to claim C1: on a TV runtime, after a single
pointer-move event the settled navigation mode is `fiveWay`, not the
`pointer` the last-qualifying-event characterization predicts — the
effect re-run triggered by the committed mode change re-asserts `5way`
immediately after the pointer-move's update lands. -/
theorem mode_transition_cex :
    runMode true [InputEvent.pointerMove] = NavMode.fiveWay ∧
      modeAfterSpec true [InputEvent.pointerMove] = NavMode.pointer := by
  refine ⟨rfl, rfl⟩

/-- Claim C1 (amended): on a non-TV runtime the settled mode after any
sequence of pointer-move and key-down events equals `pointer` when the
last qualifying event is a pointer-move, `fiveWay` when it is a
directional key-down, and the initial `pointer` mode when no qualifying
event occurred, with non-qualifying events never changing it; on a TV
runtime the initial mode is `fiveWay` and the settled mode remains
`fiveWay` after every sequence, because each committed mode change
re-runs the effect, which re-asserts `5way`. -/
theorem mode_transition_settled (isWebOS : Bool) (events : List InputEvent) :
    runMode isWebOS events =
        (if isWebOS then NavMode.fiveWay else modeAfterSpec false events) ∧
      initialMode isWebOS =
        (if isWebOS then NavMode.fiveWay else NavMode.pointer) := by
  constructor
  · cases isWebOS with
    | true => simpa using runMode_webOS events
    | false =>
      have hstep : settledModeStep false = modeStep :=
        funext fun m => funext fun e => rfl
      unfold runMode
      rw [hstep, foldl_modeStep]
      simp only [Bool.false_eq_true, if_false]
      unfold modeAfterSpec lastQualifying
      cases hq : (events.filter qualifying).getLast? with
      | none => rfl
      | some e =>
        have hmem : e ∈ events.filter qualifying :=
          List.mem_of_getLast?_eq_some hq
        have hqe : qualifying e = true := (List.mem_filter.mp hmem).2
        cases e with
        | pointerMove => rfl
        | keyDown c =>
          simp only [qualifying] at hqe
          show handleNavigationKeyDown (initialMode false) c = NavMode.fiveWay
          unfold handleNavigationKeyDown
          rw [hqe]
          simp
  · cases isWebOS <;> rfl

lemma moveRight_eq_emod (n : Nat) (i : Int) (h0 : 0 ≤ i) (hi : i < (n : Int)) :
    moveRight n i = (i + 1) % (n : Int) := by
  unfold moveRight
  by_cases h : i < (n : Int) - 1
  · rw [if_pos h, Int.emod_eq_of_lt (by omega) (by omega)]
  · rw [if_neg h]
    have hin : i = (n : Int) - 1 := by omega
    subst hin
    rw [Int.sub_add_cancel, Int.emod_self]

lemma moveRight_iterate (n : Nat) (hn : 1 ≤ n) :
    ∀ (k : Nat) (i : Int), 0 ≤ i → i < (n : Int) →
      (moveRight n)^[k] i = (i + k) % (n : Int) := by
  intro k
  induction k with
  | zero =>
    intro i h0 hi
    simp [Int.emod_eq_of_lt h0 hi]
  | succ k ih =>
    intro i h0 hi
    rw [Function.iterate_succ_apply, moveRight_eq_emod n i h0 hi]
    have hpos : (0 : Int) < (n : Int) := by exact_mod_cast hn
    have h0' : 0 ≤ (i + 1) % (n : Int) := Int.emod_nonneg _ (by omega)
    have h1' : (i + 1) % (n : Int) < (n : Int) := Int.emod_lt_of_pos _ hpos
    rw [ih _ h0' h1', Int.emod_add_emod]
    push_cast
    ring_nf

lemma moveRight_iterate_self (n : Nat) (hn : 1 ≤ n) (i : Int)
    (h0 : 0 ≤ i) (hi : i < (n : Int)) : (moveRight n)^[n] i = i := by
  rw [moveRight_iterate n hn n i h0 hi]
  have hrw : i + (n : Int) = i + (n : Int) * 1 := by ring
  rw [hrw, Int.add_mul_emod_self_left]
  exact Int.emod_eq_of_lt h0 hi

lemma moveRight_moveLeft (n : Nat) (i : Int) (_h0 : 0 ≤ i)
    (hi : i < (n : Int)) : moveRight n (moveLeft n i) = i := by
  unfold moveLeft moveRight
  split_ifs <;> omega

lemma moveRight_mem_range (n : Nat) (hn : 1 ≤ n) (i : Int) (h0 : 0 ≤ i)
    (hi : i < (n : Int)) : 0 ≤ moveRight n i ∧ moveRight n i < (n : Int) := by
  unfold moveRight
  split_ifs <;> omega

lemma moveLeft_mem_range (n : Nat) (hn : 1 ≤ n) (i : Int) (_h0 : 0 ≤ i)
    (hi : i < (n : Int)) : 0 ≤ moveLeft n i ∧ moveLeft n i < (n : Int) := by
  unfold moveLeft
  split_ifs <;> omega

lemma handleKeyDown_right_default (opts : NavOptions) (env : HostEnv)
    (n : Nat) (i : Int) (h : navHandled opts Direction.right = false) :
    (handleKeyDown opts env NavMode.fiveWay n i KEY_CODES.RIGHT).1 =
      moveRight n i := by
  simp [handleKeyDown, KEY_CODES, h]

lemma handleKeyDown_left_default (opts : NavOptions) (env : HostEnv)
    (n : Nat) (i : Int) (h : navHandled opts Direction.left = false) :
    (handleKeyDown opts env NavMode.fiveWay n i KEY_CODES.LEFT).1 =
      moveLeft n i := by
  simp [handleKeyDown, KEY_CODES, h]

/-- The empty options record: no callbacks supplied at all. -/
def defNavOptions : NavOptions :=
  { onNavigate := none, onBack := none, onOk := false }

/-- Claim C2: in `fiveWay` mode with `onNavigate` absent or refusing every
direction, for a tracked list of `n ≥ 1` elements and focus index
`i ∈ [0, n)`: pressing Right `n` times through `handleKeyDown` returns the
index to `i`; pressing Left then Right returns to `i`; and one Left or
Right press always lands in `[0, n)`, so movement is total. -/
theorem focus_wrap_roundtrip (opts : NavOptions) (env : HostEnv) (n : Nat)
    (i : Int) (hn : 1 ≤ n) (h0 : 0 ≤ i) (hi : i < (n : Int))
    (hnav : ∀ d, navHandled opts d = false) :
    (fun j => (handleKeyDown opts env NavMode.fiveWay n j KEY_CODES.RIGHT).1)^[n] i
        = i ∧
      (handleKeyDown opts env NavMode.fiveWay n
          ((handleKeyDown opts env NavMode.fiveWay n i KEY_CODES.LEFT).1)
          KEY_CODES.RIGHT).1 = i ∧
      (0 ≤ (handleKeyDown opts env NavMode.fiveWay n i KEY_CODES.RIGHT).1 ∧
        (handleKeyDown opts env NavMode.fiveWay n i KEY_CODES.RIGHT).1
          < (n : Int)) ∧
      (0 ≤ (handleKeyDown opts env NavMode.fiveWay n i KEY_CODES.LEFT).1 ∧
        (handleKeyDown opts env NavMode.fiveWay n i KEY_CODES.LEFT).1
          < (n : Int)) := by
  have hstep :
      (fun j => (handleKeyDown opts env NavMode.fiveWay n j KEY_CODES.RIGHT).1)
        = moveRight n :=
    funext fun j => handleKeyDown_right_default opts env n j (hnav _)
  refine ⟨?_, ?_, ?_, ?_⟩
  · rw [hstep]
    exact moveRight_iterate_self n hn i h0 hi
  · rw [handleKeyDown_left_default opts env n i (hnav _),
      handleKeyDown_right_default opts env n _ (hnav _)]
    exact moveRight_moveLeft n i h0 hi
  · rw [handleKeyDown_right_default opts env n i (hnav _)]
    exact moveRight_mem_range n hn i h0 hi
  · rw [handleKeyDown_left_default opts env n i (hnav _)]
    exact moveLeft_mem_range n hn i h0 hi

/-- Witness for claim C2 at `n = 2`, `i = 1`, with no callbacks supplied. -/
theorem focus_wrap_roundtrip_witness :
    1 ≤ 2 ∧ (0 : Int) ≤ 1 ∧ (1 : Int) < ((2 : Nat) : Int) ∧
      ((fun j =>
          (handleKeyDown defNavOptions ⟨1, false⟩ NavMode.fiveWay 2 j
            KEY_CODES.RIGHT).1)^[2] 1 = 1 ∧
        (handleKeyDown defNavOptions ⟨1, false⟩ NavMode.fiveWay 2
            ((handleKeyDown defNavOptions ⟨1, false⟩ NavMode.fiveWay 2 1
              KEY_CODES.LEFT).1) KEY_CODES.RIGHT).1 = 1 ∧
        (0 ≤ (handleKeyDown defNavOptions ⟨1, false⟩ NavMode.fiveWay 2 1
              KEY_CODES.RIGHT).1 ∧
          (handleKeyDown defNavOptions ⟨1, false⟩ NavMode.fiveWay 2 1
              KEY_CODES.RIGHT).1 < ((2 : Nat) : Int)) ∧
        (0 ≤ (handleKeyDown defNavOptions ⟨1, false⟩ NavMode.fiveWay 2 1
              KEY_CODES.LEFT).1 ∧
          (handleKeyDown defNavOptions ⟨1, false⟩ NavMode.fiveWay 2 1
              KEY_CODES.LEFT).1 < ((2 : Nat) : Int))) :=
  ⟨by decide, by decide, by decide,
    focus_wrap_roundtrip defNavOptions ⟨1, false⟩ 2 1 (by decide) (by decide)
      (by decide) (fun _ => rfl)⟩

/-- Number of built-in default Back actions an invocation performed:
a history pop counts one, showing the exit prompt counts one. -/
def defaultBackActions (e : NavEffects) : Nat :=
  (if e.historyBack then 1 else 0) + (if e.promptShown then 1 else 0)

/-- An `onNavigate` handler that is supplied and refuses every direction. -/
def refuseNavOptions : NavOptions :=
  { onNavigate := some (fun _ => false), onBack := none, onOk := false }

/-- Counterexample to claim C3: an Up key in `fiveWay` mode with a supplied
`onNavigate` that returns `false` invokes the handler, yet the handler
executes zero default index movements — not exactly one — and leaves the
index where it was: the source's UP and DOWN cases have no fallback
movement at all. -/
theorem first_refusal_cex :
    (handleKeyDown refuseNavOptions ⟨1, false⟩ NavMode.fiveWay 2 0
          KEY_CODES.UP).2.navigateCalls = [Direction.up] ∧
      (handleKeyDown refuseNavOptions ⟨1, false⟩ NavMode.fiveWay 2 0
          KEY_CODES.UP).2.defaultMoves = 0 ∧
      (handleKeyDown refuseNavOptions ⟨1, false⟩ NavMode.fiveWay 2 0
          KEY_CODES.UP).1 = 0 := by
  refine ⟨rfl, rfl, rfl⟩

/-- Claim C3 (amended): in `fiveWay` mode, first-refusal holds for Left,
Right and Back — a handler returning `true` suppresses the built-in
default, and a handler returning `false` or absent lets the default run
exactly once — while for Up and Down the supplied handler is merely
invoked and there is no built-in default movement at all, whatever the
handler returns. -/
theorem first_refusal_ordering (opts : NavOptions) (env : HostEnv)
    (n : Nat) (i : Int) :
    ((handleKeyDown opts env NavMode.fiveWay n i KEY_CODES.LEFT).2.defaultMoves
        = if navHandled opts Direction.left then 0 else 1) ∧
      ((handleKeyDown opts env NavMode.fiveWay n i
            KEY_CODES.RIGHT).2.defaultMoves
        = if navHandled opts Direction.right then 0 else 1) ∧
      ((handleKeyDown opts env NavMode.fiveWay n i
          KEY_CODES.UP).2.defaultMoves = 0) ∧
      ((handleKeyDown opts env NavMode.fiveWay n i KEY_CODES.UP).2.navigateCalls
        = navCall opts Direction.up) ∧
      ((handleKeyDown opts env NavMode.fiveWay n i
          KEY_CODES.DOWN).2.defaultMoves = 0) ∧
      ((handleKeyDown opts env NavMode.fiveWay n i
          KEY_CODES.DOWN).2.navigateCalls = navCall opts Direction.down) ∧
      (defaultBackActions
          (handleKeyDown opts env NavMode.fiveWay n i KEY_CODES.BACK).2
        = if backHandled opts then 0 else 1) := by
  refine ⟨?_, ?_, ?_, ?_, ?_, ?_, ?_⟩
  · by_cases h : navHandled opts Direction.left <;>
      simp [handleKeyDown, KEY_CODES, h, noNavEffects]
  · by_cases h : navHandled opts Direction.right <;>
      simp [handleKeyDown, KEY_CODES, h, noNavEffects]
  · simp [handleKeyDown, KEY_CODES, noNavEffects]
  · simp [handleKeyDown, KEY_CODES, noNavEffects]
  · simp [handleKeyDown, KEY_CODES, noNavEffects]
  · simp [handleKeyDown, KEY_CODES, noNavEffects]
  · by_cases hb : backHandled opts
    · simp [handleKeyDown, KEY_CODES, hb, defaultBackActions, noNavEffects]
    · by_cases hh : env.historyLength > 1 <;>
        simp [handleKeyDown, KEY_CODES, hb, hh, defaultBackActions,
          noNavEffects]

/-- Per-element options supplying only an activation callback. -/
def enterFocusOptions : FocusOptions :=
  { onFocusPresent := false
    onBlurPresent := false
    onEnterPresent := true
    onBackPresent := false
    disabled := false }

/-- Counterexample to claim C4: with the per-element binding in `pointer`
mode, an Enter keydown on the focused, enabled element still invokes the
activation callback `onEnter` — the element binding's Enter handling never
consults the navigation mode. -/
theorem mode_gating_cex :
    (focusKeyDownTurn enterFocusOptions true NavMode.pointer "Enter"
        13).2.onEnterCalled = true := by
  rfl

/-- Claim C4 (amended): the container binding gates directional movement
and activation on `fiveWay` mode — in `pointer` mode the arrow keys only
prevent default and the OK key does nothing — and its Back handling is
mode-independent; the per-element binding's keydown handling (Enter
activation and Back) is mode-independent as well, so its activation is not
suppressed in `pointer` mode. -/
theorem mode_gating (opts : NavOptions) (env : HostEnv) (n : Nat) (i : Int)
    (fopts : FocusOptions) (foc : Bool) (key : String) (kc : Nat)
    (m1 m2 : NavMode) :
    handleKeyDown opts env NavMode.pointer n i KEY_CODES.LEFT
        = (i, { noNavEffects with preventDefault := true }) ∧
      handleKeyDown opts env NavMode.pointer n i KEY_CODES.RIGHT
        = (i, { noNavEffects with preventDefault := true }) ∧
      handleKeyDown opts env NavMode.pointer n i KEY_CODES.UP
        = (i, { noNavEffects with preventDefault := true }) ∧
      handleKeyDown opts env NavMode.pointer n i KEY_CODES.DOWN
        = (i, { noNavEffects with preventDefault := true }) ∧
      handleKeyDown opts env NavMode.pointer n i KEY_CODES.OK
        = (i, noNavEffects) ∧
      handleKeyDown opts env NavMode.pointer n i KEY_CODES.BACK
        = handleKeyDown opts env NavMode.fiveWay n i KEY_CODES.BACK ∧
      (focusKeyDownTurn fopts foc m1 key kc).2
        = (focusKeyDownTurn fopts foc m2 key kc).2 := by
  refine ⟨?_, ?_, ?_, ?_, ?_, ?_, ?_⟩
  · simp [handleKeyDown, KEY_CODES]
  · simp [handleKeyDown, KEY_CODES]
  · simp [handleKeyDown, KEY_CODES]
  · simp [handleKeyDown, KEY_CODES]
  · simp [handleKeyDown, KEY_CODES]
  · simp [handleKeyDown, KEY_CODES]
  · simp only [focusKeyDownTurn, focusDocKeyDown]
    split_ifs <;> rfl

/-- Counterexample to claim C5: when an ArrowRight keydown (code 39)
arrives while the container's committed mode is `pointer`, the movement
logic processing that very event still reads `pointer` and performs no
movement — index unchanged, zero default moves — even though the turn's
mode update switches the state to `fiveWay` for later events.  Had the
transition been observed synchronously, the same event would have produced
one default move to index 1. -/
theorem stale_mode_cex :
    (containerKeyTurn defNavOptions ⟨1, false⟩ 3
          { navigationMode := NavMode.pointer, focusedIndex := 0 } 39).1
        = { navigationMode := NavMode.fiveWay, focusedIndex := 0 } ∧
      (containerKeyTurn defNavOptions ⟨1, false⟩ 3
          { navigationMode := NavMode.pointer, focusedIndex := 0 }
          39).2.defaultMoves = 0 := by
  refine ⟨rfl, rfl⟩

/-- Claim C5 (amended): a mode transition triggered by an input event
becomes visible only from the next event turn on.  When a directional key
arrives while the committed mode is `pointer`, the key handler of that
same turn still reads `pointer` — it performs no movement and leaves the
index unchanged — and the state committed after the turn carries
`fiveWay`, which the handlers of subsequent turns then read. -/
theorem stale_mode_one_turn (opts : NavOptions) (env : HostEnv) (n : Nat)
    (s : ContainerState) (k : Nat)
    (hmode : s.navigationMode = NavMode.pointer)
    (hk : [37, 38, 39, 40].contains k = true) :
    (containerKeyTurn opts env n s k).1.navigationMode = NavMode.fiveWay ∧
      (containerKeyTurn opts env n s k).1.focusedIndex = s.focusedIndex ∧
      (containerKeyTurn opts env n s k).2.defaultMoves = 0 := by
  have hk4 : k = 37 ∨ k = 38 ∨ k = 39 ∨ k = 40 := by
    simpa using hk
  rcases hk4 with h | h | h | h <;> subst h <;>
    simp [containerKeyTurn, handleKeyDown, handleNavigationKeyDown,
      KEY_CODES, hmode, noNavEffects]

/-- Witness for claim C5 (amended) at a `pointer`-mode state and an
ArrowRight key. -/
theorem stale_mode_one_turn_witness :
    ({ navigationMode := NavMode.pointer, focusedIndex := 0 } :
          ContainerState).navigationMode = NavMode.pointer ∧
      [37, 38, 39, 40].contains 39 = true ∧
      ((containerKeyTurn defNavOptions ⟨1, false⟩ 3
            { navigationMode := NavMode.pointer, focusedIndex := 0 }
            39).1.navigationMode = NavMode.fiveWay ∧
        (containerKeyTurn defNavOptions ⟨1, false⟩ 3
            { navigationMode := NavMode.pointer, focusedIndex := 0 }
            39).1.focusedIndex
          = ({ navigationMode := NavMode.pointer, focusedIndex := 0 } :
              ContainerState).focusedIndex ∧
        (containerKeyTurn defNavOptions ⟨1, false⟩ 3
            { navigationMode := NavMode.pointer, focusedIndex := 0 }
            39).2.defaultMoves = 0) :=
  ⟨rfl, by decide,
    stale_mode_one_turn defNavOptions ⟨1, false⟩ 3
      { navigationMode := NavMode.pointer, focusedIndex := 0 } 39 rfl
      (by decide)⟩

/-- Claim C6: when a Back key (code 461) reaches the container binding and
no supplied `onBack` consumes it, the focused index is unchanged in every
case; with more than one history entry the controller pops history and
shows no prompt and does not close; otherwise it shows the exit prompt,
pops nothing, and closes the application exactly when the confirmation is
accepted — declining leaves everything untouched. -/
theorem back_default_behavior (opts : NavOptions) (env : HostEnv)
    (mode : NavMode) (n : Nat) (i : Int) (h : backHandled opts = false) :
    (handleKeyDown opts env mode n i KEY_CODES.BACK).1 = i ∧
      (env.historyLength > 1 →
        (handleKeyDown opts env mode n i KEY_CODES.BACK).2.historyBack = true ∧
          (handleKeyDown opts env mode n i
            KEY_CODES.BACK).2.promptShown = false ∧
          (handleKeyDown opts env mode n i
            KEY_CODES.BACK).2.windowClosed = false) ∧
      (¬ env.historyLength > 1 →
        (handleKeyDown opts env mode n i
            KEY_CODES.BACK).2.historyBack = false ∧
          (handleKeyDown opts env mode n i
            KEY_CODES.BACK).2.promptShown = true ∧
          (handleKeyDown opts env mode n i
            KEY_CODES.BACK).2.windowClosed = env.confirmExit) := by
  by_cases hh : env.historyLength > 1 <;>
    simp [handleKeyDown, KEY_CODES, h, hh, noNavEffects]

/-- Witness for claim C6 with no `onBack` supplied, a one-entry history,
and a declined confirmation. -/
theorem back_default_behavior_witness :
    backHandled defNavOptions = false ∧
      ((handleKeyDown defNavOptions ⟨1, false⟩ NavMode.fiveWay 2 0
            KEY_CODES.BACK).1 = 0 ∧
        ((⟨1, false⟩ : HostEnv).historyLength > 1 →
          (handleKeyDown defNavOptions ⟨1, false⟩ NavMode.fiveWay 2 0
              KEY_CODES.BACK).2.historyBack = true ∧
            (handleKeyDown defNavOptions ⟨1, false⟩ NavMode.fiveWay 2 0
              KEY_CODES.BACK).2.promptShown = false ∧
            (handleKeyDown defNavOptions ⟨1, false⟩ NavMode.fiveWay 2 0
              KEY_CODES.BACK).2.windowClosed = false) ∧
        (¬ (⟨1, false⟩ : HostEnv).historyLength > 1 →
          (handleKeyDown defNavOptions ⟨1, false⟩ NavMode.fiveWay 2 0
              KEY_CODES.BACK).2.historyBack = false ∧
            (handleKeyDown defNavOptions ⟨1, false⟩ NavMode.fiveWay 2 0
              KEY_CODES.BACK).2.promptShown = true ∧
            (handleKeyDown defNavOptions ⟨1, false⟩ NavMode.fiveWay 2 0
              KEY_CODES.BACK).2.windowClosed
              = (⟨1, false⟩ : HostEnv).confirmExit)) :=
  ⟨rfl,
    back_default_behavior defNavOptions ⟨1, false⟩ NavMode.fiveWay 2 0 rfl⟩

/-- A disabled per-element binding with every callback supplied. -/
def disabledFocusOptions : FocusOptions :=
  { onFocusPresent := true
    onBlurPresent := true
    onEnterPresent := true
    onBackPresent := true
    disabled := true }

/-- Counterexample to claim C7: a disabled element still invokes `onBlur`
when a blur event is delivered, and its `onBack` still runs on a Back key
(code 461) — the source guards neither handler with `disabled`. -/
theorem disabled_element_cex :
    (focusPropsOnBlur disabledFocusOptions true).2.onBlurCalled = true ∧
      (focusKeyDownTurn disabledFocusOptions false NavMode.pointer "GoBack"
          461).2.onBackCalled = true := by
  refine ⟨rfl, rfl⟩

/-- Claim C7 (amended): a disabled element is not keyboard-focusable
(`tabIndex = -1`, not marked webOS-focusable) and never invokes `onFocus`
(its focus handler also leaves the focused flag unchanged) or `onEnter`;
but `onBlur` is still invoked on blur whenever it is supplied, and
`onBack` is still invoked on a Back key whenever it is supplied — only the
focus and Enter paths are guarded by `disabled`. -/
theorem disabled_element_behavior (opts : FocusOptions) (foc : Bool)
    (mode : NavMode) (key : String) (h : opts.disabled = true) :
    focusPropsTabIndex opts = -1 ∧
      focusPropsWebosFocusable opts = false ∧
      (focusPropsOnFocus opts foc).1 = foc ∧
      (focusPropsOnFocus opts foc).2 = noFocusEffects ∧
      (focusPropsOnKeyDown opts key).onEnterCalled = false ∧
      (focusPropsOnBlur opts foc).2.onBlurCalled = opts.onBlurPresent ∧
      (focusKeyDownTurn opts foc mode key 461).2.onBackCalled
        = opts.onBackPresent := by
  refine ⟨?_, ?_, ?_, ?_, ?_, ?_, ?_⟩
  · simp [focusPropsTabIndex, h]
  · simp [focusPropsWebosFocusable, h]
  · simp [focusPropsOnFocus, h]
  · simp [focusPropsOnFocus, h]
  · simp [focusPropsOnKeyDown, h, noFocusEffects]
  · simp [focusPropsOnBlur, noFocusEffects]
  · by_cases hb : opts.onBackPresent <;>
      simp [focusKeyDownTurn, focusDocKeyDown, focusPropsOnKeyDown,
        mergeFocusEffects, noFocusEffects, h, hb]

/-- Witness for claim C7 (amended) on a disabled element with every
callback supplied. -/
theorem disabled_element_behavior_witness :
    disabledFocusOptions.disabled = true ∧
      (focusPropsTabIndex disabledFocusOptions = -1 ∧
        focusPropsWebosFocusable disabledFocusOptions = false ∧
        (focusPropsOnFocus disabledFocusOptions true).1 = true ∧
        (focusPropsOnFocus disabledFocusOptions true).2 = noFocusEffects ∧
        (focusPropsOnKeyDown disabledFocusOptions "Enter").onEnterCalled
          = false ∧
        (focusPropsOnBlur disabledFocusOptions true).2.onBlurCalled
          = disabledFocusOptions.onBlurPresent ∧
        (focusKeyDownTurn disabledFocusOptions true NavMode.pointer "GoBack"
            461).2.onBackCalled = disabledFocusOptions.onBackPresent) :=
  ⟨rfl,
    disabled_element_behavior disabledFocusOptions true NavMode.pointer
      "GoBack" rfl⟩

/-- Per-element options supplying only a Back callback. -/
def backFocusOptions : FocusOptions :=
  { onFocusPresent := false
    onBlurPresent := false
    onEnterPresent := false
    onBackPresent := true
    disabled := false }

/-- Counterexample to claim C8: the per-element binding invokes `onBack`
on a Back key (code 461) even while the element is not focused — the
document-level listener never consults the focus state. -/
theorem element_back_cex :
    (focusKeyDownTurn backFocusOptions false NavMode.pointer "GoBack"
        461).2.onBackCalled = true := by
  rfl

/-- Claim C8 (amended): during a keydown turn the per-element binding
invokes `onBack` exactly when the key code is 461 and `onBack` is
supplied, independently of whether the element is focused; and (for any
key other than Enter) default is prevented exactly in that same case, so
with no `onBack` supplied the Back event is left unhandled for outer
handlers. -/
theorem element_back_behavior (opts : FocusOptions) (foc : Bool)
    (mode : NavMode) (key : String) (kc : Nat) (hkey : key ≠ "Enter") :
    (focusKeyDownTurn opts foc mode key kc).2.onBackCalled
        = (decide (kc = 461) && opts.onBackPresent) ∧
      (focusKeyDownTurn opts foc mode key kc).2.preventDefault
        = (decide (kc = 461) && opts.onBackPresent) := by
  by_cases hb : kc = 461 ∧ opts.onBackPresent = true
  · obtain ⟨hk, hp⟩ := hb
    subst hk
    simp [focusKeyDownTurn, focusDocKeyDown, focusPropsOnKeyDown,
      mergeFocusEffects, noFocusEffects, hkey, hp]
  · simp [focusKeyDownTurn, focusDocKeyDown, focusPropsOnKeyDown,
      mergeFocusEffects, noFocusEffects, hkey, hb]
    intro hk
    rcases Decidable.not_and_iff_or_not.mp hb with h | h
    · exact absurd hk h
    · simpa using h

/-- Witness for claim C8 (amended): Back key, `onBack` supplied, element
not focused. -/
theorem element_back_behavior_witness :
    ("GoBack" : String) ≠ "Enter" ∧
      ((focusKeyDownTurn backFocusOptions false NavMode.pointer "GoBack"
            461).2.onBackCalled
          = (decide ((461 : Nat) = 461) && backFocusOptions.onBackPresent) ∧
        (focusKeyDownTurn backFocusOptions false NavMode.pointer "GoBack"
            461).2.preventDefault
          = (decide ((461 : Nat) = 461) && backFocusOptions.onBackPresent)) :=
  ⟨by decide,
    element_back_behavior backFocusOptions false NavMode.pointer "GoBack" 461
      (by decide)⟩

/-- Counterexample to claim C9: with an empty tracked list, `fiveWay` mode
and no `onNavigate`, a Left key from the initial index 0 changes the focus
index to `-1` (`length - 1` of an empty list) instead of leaving the
controller state unchanged. -/
theorem empty_list_cex :
    (handleKeyDown defNavOptions ⟨1, false⟩ NavMode.fiveWay 0 0
        KEY_CODES.LEFT).1 = -1 := by
  rfl

/-- Claim C9 (amended): with an empty tracked list in `fiveWay` mode and
no consuming `onNavigate`, a directional key never focuses any element and
(the handler being a total function) throws nothing, and Up and Down leave
the index unchanged; but Left and Right still apply the wrap arithmetic —
in particular Left from index 0 sets the index to `-1` — and the event is
preventDefault-ed rather than left untouched. -/
theorem empty_list_behavior (opts : NavOptions) (env : HostEnv) (i : Int)
    (hnav : ∀ d, navHandled opts d = false) :
    ((handleKeyDown opts env NavMode.fiveWay 0 i KEY_CODES.LEFT).1
        = if i > 0 then i - 1 else -1) ∧
      (handleKeyDown opts env NavMode.fiveWay 0 i
          KEY_CODES.LEFT).2.focusedElement = none ∧
      (handleKeyDown opts env NavMode.fiveWay 0 i
          KEY_CODES.LEFT).2.preventDefault = true ∧
      ((handleKeyDown opts env NavMode.fiveWay 0 i KEY_CODES.RIGHT).1
        = if i < -1 then i + 1 else 0) ∧
      (handleKeyDown opts env NavMode.fiveWay 0 i
          KEY_CODES.RIGHT).2.focusedElement = none ∧
      (handleKeyDown opts env NavMode.fiveWay 0 i KEY_CODES.UP).1 = i ∧
      (handleKeyDown opts env NavMode.fiveWay 0 i KEY_CODES.DOWN).1 = i := by
  refine ⟨?_, ?_, ?_, ?_, ?_, ?_, ?_⟩
  · rw [handleKeyDown_left_default opts env 0 i (hnav _)]
    simp [moveLeft]
  · simp [handleKeyDown, KEY_CODES, hnav Direction.left, tryFocus, moveLeft]
  · by_cases h : navHandled opts Direction.left <;>
      simp [handleKeyDown, KEY_CODES, h, noNavEffects]
  · rw [handleKeyDown_right_default opts env 0 i (hnav _)]
    simp [moveRight]
  · simp [handleKeyDown, KEY_CODES, hnav Direction.right, tryFocus, moveRight]
  · simp [handleKeyDown, KEY_CODES]
  · simp [handleKeyDown, KEY_CODES]

/-- Witness for claim C9 (amended) at index 0 with no callbacks. -/
theorem empty_list_behavior_witness :
    navHandled defNavOptions Direction.left = false ∧
      (((handleKeyDown defNavOptions ⟨1, false⟩ NavMode.fiveWay 0 0
            KEY_CODES.LEFT).1 = if (0 : Int) > 0 then 0 - 1 else -1) ∧
        (handleKeyDown defNavOptions ⟨1, false⟩ NavMode.fiveWay 0 0
            KEY_CODES.LEFT).2.focusedElement = none ∧
        (handleKeyDown defNavOptions ⟨1, false⟩ NavMode.fiveWay 0 0
            KEY_CODES.LEFT).2.preventDefault = true ∧
        ((handleKeyDown defNavOptions ⟨1, false⟩ NavMode.fiveWay 0 0
            KEY_CODES.RIGHT).1 = if (0 : Int) < -1 then 0 + 1 else 0) ∧
        (handleKeyDown defNavOptions ⟨1, false⟩ NavMode.fiveWay 0 0
            KEY_CODES.RIGHT).2.focusedElement = none ∧
        (handleKeyDown defNavOptions ⟨1, false⟩ NavMode.fiveWay 0 0
            KEY_CODES.UP).1 = 0 ∧
        (handleKeyDown defNavOptions ⟨1, false⟩ NavMode.fiveWay 0 0
            KEY_CODES.DOWN).1 = 0) :=
  ⟨rfl, empty_list_behavior defNavOptions ⟨1, false⟩ 0 (fun _ => rfl)⟩

/-- Claim C10: a keydown whose code is none of 37, 38, 39, 40, 13, 461
falls through the container handler's switch: the focused index is
returned unchanged with no effect whatsoever (no callback, no
preventDefault, no movement), and the mode listener leaves the navigation
mode unchanged as well. -/
theorem unknown_key_noop (opts : NavOptions) (env : HostEnv)
    (mode : NavMode) (n : Nat) (i : Int) (kc : Nat)
    (h37 : kc ≠ 37) (h38 : kc ≠ 38) (h39 : kc ≠ 39) (h40 : kc ≠ 40)
    (h13 : kc ≠ 13) (h461 : kc ≠ 461) :
    handleKeyDown opts env mode n i kc = (i, noNavEffects) ∧
      handleNavigationKeyDown mode kc = mode := by
  constructor
  · simp [handleKeyDown, KEY_CODES, h37, h38, h39, h40, h13, h461]
  · simp [handleNavigationKeyDown, h37, h38, h39, h40]

/-- Witness for claim C10 at key code 65 (the letter A). -/
theorem unknown_key_noop_witness :
    (65 : Nat) ≠ 37 ∧ (65 : Nat) ≠ 38 ∧ (65 : Nat) ≠ 39 ∧
      (65 : Nat) ≠ 40 ∧ (65 : Nat) ≠ 13 ∧ (65 : Nat) ≠ 461 ∧
      (handleKeyDown defNavOptions ⟨1, false⟩ NavMode.pointer 2 0 65
          = (0, noNavEffects) ∧
        handleNavigationKeyDown NavMode.pointer 65 = NavMode.pointer) :=
  ⟨by decide, by decide, by decide, by decide, by decide, by decide,
    unknown_key_noop defNavOptions ⟨1, false⟩ NavMode.pointer 2 0 65
      (by decide) (by decide) (by decide) (by decide) (by decide)
      (by decide)⟩
